import Mathlib

/-!
Verification of the market-data core of `stock_tracker_agent`.

This file gives a shallow embedding of the Python sources and proves the
specified properties about them.  Modelling conventions:

* Python `Decimal` values are modelled as exact rationals (`Rat`): `Decimal`
  is decimal fixed-point arithmetic, and all quantities the claims touch are
  produced by exact operations on such values.
* `datetime` timestamps are modelled as natural numbers; `datetime.utcnow()`
  becomes an explicit `now : Nat` argument threaded through the calls.
* Python `dict`s (the quote cache, the fetched-price map) are modelled as
  association lists with dict update semantics (a key occurs at most once).
* Exceptions are modelled with `Except`: a function that can raise returns
  `Except E A`, and `try/except` control flow becomes matching on that value.
* `str.upper()`, `str.lower()` and `str.strip()` are modelled character-wise
  on the underlying character list (`pyUpper`, `pyLower`, `pyStrip`).
-/

namespace StockTracker

/-- Model of Python `str.upper()`: uppercase every character. -/
def pyUpper (s : String) : String := ⟨s.data.map Char.toUpper⟩

/-- Model of Python `str.lower()`: lowercase every character. -/
def pyLower (s : String) : String := ⟨s.data.map Char.toLower⟩

/-- Model of Python `str.strip()`: drop leading and trailing whitespace. -/
def pyStrip (s : String) : String :=
  ⟨((s.data.dropWhile Char.isWhitespace).reverse.dropWhile Char.isWhitespace).reverse⟩

/-- Characters accepted by `validate_stock_symbol` besides alphanumerics:
dot, caret and hyphen (class shares, indices, hyphenated tickers);
from `src/models/validators.py`. -/
def allowedSymbolChar (c : Char) : Bool :=
  c.isAlphanum || c == '.' || c == '^' || c == '-'

/-- Characters of the `dangerous_patterns` list of `validate_stock_symbol`
(`src/models/validators.py`): slash 47, backslash 92, pipe 124, ampersand 38,
semicolon 59, backquote 96, dollar 36, the two parentheses 40 and 41,
less-than 60 and greater-than 62, given here by their code points. -/
def dangerousChar (c : Char) : Bool :=
  c.toNat == 47 || c.toNat == 92 || c.toNat == 124 || c.toNat == 38 ||
  c.toNat == 59 || c.toNat == 96 || c.toNat == 36 || c.toNat == 40 ||
  c.toNat == 41 || c.toNat == 60 || c.toNat == 62

/-- Embedding of `validate_stock_symbol` (`src/models/validators.py`):
uppercase then strip, then reject empty symbols, symbols longer than 10
characters, characters outside the allowed set, and command-injection
characters; on success return the cleaned symbol. -/
def validate_stock_symbol (symbol : String) : Except String String :=
  let cleaned := pyStrip (pyUpper symbol)
  if cleaned.data.isEmpty then
    .error "Symbol cannot be empty"
  else if 10 < cleaned.data.length then
    .error "Symbol must be 10 characters or less"
  else if !(cleaned.data.all allowedSymbolChar) then
    .error "Symbol must be alphanumeric (dots, caret, hyphen allowed). Prohibited characters detected."
  else if cleaned.data.any dangerousChar then
    .error "Symbol contains prohibited characters that could be used for command injection"
  else
    .ok cleaned

/-- Embedding of the `PricePoint` pydantic model (`src/models/stock.py`):
symbol, strictly positive decimal price, timestamp, currency code. -/
structure PricePoint where
  symbol : String
  price : Rat
  timestamp : Nat
  currency : String
deriving DecidableEq

/-- Embedding of constructing a `PricePoint` through pydantic validation
(`src/models/stock.py`): the symbol is validated and normalized by
`validate_stock_symbol`, the price must satisfy `gt=0`, the currency is
capped at 3 characters and uppercased/stripped. -/
def mkPricePoint (symbol : String) (price : Rat) (timestamp : Nat)
    (currency : String) : Except String PricePoint :=
  match validate_stock_symbol symbol with
  | .error e => .error e
  | .ok sym =>
    if 0 < price then
      if 3 < currency.data.length then
        .error "String should have at most 3 characters"
      else
        .ok ⟨sym, price, timestamp, pyStrip (pyUpper currency)⟩
    else
      .error "Input should be greater than 0"

/-- Embedding of the `PriceQuote` pydantic model (`src/models/market_data.py`):
symbol, strictly positive decimal price, timestamp and the name of the
provider that produced the quote. -/
structure PriceQuote where
  symbol : String
  price : Rat
  timestamp : Nat
  provider_name : String
deriving DecidableEq

/-- Embedding of constructing a `PriceQuote` through pydantic validation
(`src/models/market_data.py`): the symbol is validated and normalized by
`validate_stock_symbol`, the price must satisfy `gt=0`, the provider name
must be non-empty and is lowercased/stripped. -/
def mkPriceQuote (symbol : String) (price : Rat) (timestamp : Nat)
    (provider_name : String) : Except String PriceQuote :=
  match validate_stock_symbol symbol with
  | .error e => .error e
  | .ok sym =>
    if 0 < price then
      if provider_name.data.isEmpty then
        .error "String should have at least 1 character"
      else
        .ok ⟨sym, price, timestamp, pyStrip (pyLower provider_name)⟩
    else
      .error "Input should be greater than 0"

/-- Embedding of the `PriceChange` pydantic model (`src/models/stock.py`):
a derived record of the change between two price points. -/
structure PriceChange where
  symbol : String
  previous_price : Rat
  current_price : Rat
  change_amount : Rat
  change_percent : Rat
  threshold_exceeded : Bool
  previous_timestamp : Option Nat
  current_timestamp : Nat
deriving DecidableEq

/-- Embedding of `PriceChange.direction` (`src/models/stock.py`). -/
def PriceChange.direction (c : PriceChange) : String :=
  if 0 < c.change_percent then "up"
  else if c.change_percent < 0 then "down"
  else "unchanged"

/-- Embedding of `PriceChange.calculate` (`src/models/stock.py`, lines
153-185):
`change_amount = current.price - previous.price`,
`change_percent = (change_amount / previous.price) * 100`,
`threshold_exceeded = abs(change_percent) >= threshold`, and the fields of
the two input points are copied into the record.  The pydantic re-validation
of the copied fields is established upstream by the `PricePoint`
constructor. -/
def PriceChange.calculate (symbol : String) (previous current : PricePoint)
    (threshold : Rat) : PriceChange :=
  { symbol := symbol
    previous_price := previous.price
    current_price := current.price
    change_amount := current.price - previous.price
    change_percent := (current.price - previous.price) / previous.price * 100
    threshold_exceeded := decide (threshold ≤ |(current.price - previous.price) / previous.price * 100|)
    previous_timestamp := some previous.timestamp
    current_timestamp := current.timestamp }

/-- Embedding of the provider failure taxonomy
(`src/adapters/market_data_exceptions.py`): every provider failure is either
a `RateLimitError` or a `ProviderUnavailableError`; the type has no other
constructor, which models the requirement that no uncategorized transport
exception can escape a provider. -/
inductive ProviderError where
  | rateLimited (provider : String) (message : String)
  | unavailable (provider : String) (message : String)
deriving DecidableEq

/-- Message text of a provider error, as built by the exception constructors
in `src/adapters/market_data_exceptions.py` (`str(e)` in Python). -/
def ProviderError.toMessage : ProviderError → String
  | .rateLimited p m =>
    "Rate limit exceeded for " ++ p ++ (if m.data.isEmpty then "" else ": " ++ m)
  | .unavailable p m =>
    "Provider " ++ p ++ " unavailable" ++ (if m.data.isEmpty then "" else ": " ++ m)

/-- Embedding of `MarketDataUnavailableError`
(`src/adapters/market_data_exceptions.py`, lines 56-75): the aggregate
error raised when every provider fails, carrying the symbol and a message. -/
structure MarketDataUnavailableError where
  symbol : String
  message : String
deriving DecidableEq

/-- Message text of the aggregate error (`str(e)` of
`MarketDataUnavailableError`). -/
def MarketDataUnavailableError.toMessage (e : MarketDataUnavailableError) : String :=
  "Market data unavailable for " ++ e.symbol ++
    (if e.message.data.isEmpty then "" else ": " ++ e.message)

/-- Abstract quote provider as consumed by the orchestrator
(`src/adapters/market_data_provider.py`): a provider name and a fetch
behaviour, which for a given symbol and instant either yields a raw price or
one of the two categorized failures. -/
structure Provider where
  name : String
  fetchPrice : String → Nat → Except ProviderError Rat

/-- Shared success path of the four concrete providers
(`src/adapters/providers/*.py`): on a raw price the provider constructs
`PriceQuote(symbol=symbol.upper(), price=price, timestamp=utcnow(),
provider_name=self.provider_name)`; a pydantic validation failure there is
caught by the surrounding generic handler and re-raised as
`ProviderUnavailableError`. -/
def Provider.get_latest_price (p : Provider) (symbol : String) (now : Nat) :
    Except ProviderError PriceQuote :=
  match p.fetchPrice symbol now with
  | .error e => .error e
  | .ok price =>
    match mkPriceQuote (pyUpper symbol) price now p.name with
    | .ok q => .ok q
    | .error msg => .error (.unavailable p.name msg)

/-- Embedding of `_CacheEntry` (`src/services/market_data_service.py`,
lines 16-40): a cached quote together with its expiry instant. -/
structure CacheEntry where
  quote : PriceQuote
  expires_at : Nat
deriving DecidableEq

/-- Embedding of `_CacheEntry.is_expired`: `datetime.utcnow() >=
self.expires_at`. -/
def CacheEntry.is_expired (e : CacheEntry) (now : Nat) : Bool :=
  decide (e.expires_at ≤ now)

/-- Lookup in an association list modelling a Python `dict` keyed by
strings. -/
def assocFind {α : Type} : List (String × α) → String → Option α
  | [], _ => none
  | (k, v) :: rest, s => if k = s then some v else assocFind rest s

/-- Key deletion in an association list (Python `del d[k]`). -/
def assocErase {α : Type} : List (String × α) → String → List (String × α)
  | [], _ => []
  | (k, v) :: rest, s => if k = s then assocErase rest s else (k, v) :: assocErase rest s

/-- Key assignment in an association list (Python `d[k] = v`): the new
binding wins and the key stays unique. -/
def assocInsert {α : Type} (l : List (String × α)) (k : String) (v : α) :
    List (String × α) :=
  (k, v) :: assocErase l k

/-- Embedding of `MarketDataService` state
(`src/services/market_data_service.py`): the ordered provider list, the
cache TTL (`timedelta` as a number of time units) and the in-memory quote
cache. -/
structure MarketDataService where
  providers : List Provider
  cache_ttl : Nat
  cache : List (String × CacheEntry)

/-- Embedding of `MarketDataService._get_from_cache` (lines 148-165):
return the cached quote if a non-expired entry exists; an expired entry is
deleted (lazy eviction).  The function returns the looked-up quote together
with the cache state after the lookup (the Python method mutates
`self._cache`). -/
def get_from_cache (cache : List (String × CacheEntry)) (now : Nat)
    (symbol : String) : Option PriceQuote × List (String × CacheEntry) :=
  match assocFind cache symbol with
  | some entry =>
    if entry.is_expired now then (none, assocErase cache symbol)
    else (some entry.quote, cache)
  | none => (none, cache)

/-- Embedding of `MarketDataService._cache_quote` (lines 167-174): store the
quote under `quote.symbol` with expiry `utcnow() + cache_ttl`. -/
def cache_quote (cache : List (String × CacheEntry)) (cache_ttl : Nat)
    (now : Nat) (quote : PriceQuote) : List (String × CacheEntry) :=
  assocInsert cache quote.symbol ⟨quote, now + cache_ttl⟩

/-- Embedding of the provider loop of `MarketDataService.get_latest_price`
(lines 100-134): try providers in order, returning the first successful
quote; a failure is retained as `last_error` and the loop continues.  The
second component is the list of names of the providers actually invoked,
in invocation order. -/
def tryProviders (symbol : String) (now : Nat) (last_error : Option ProviderError) :
    List Provider → Except (Option ProviderError) PriceQuote × List String
  | [] => (.error last_error, [])
  | p :: rest =>
    match p.get_latest_price symbol now with
    | .ok q => (.ok q, [p.name])
    | .error e =>
      let r := tryProviders symbol now (some e) rest
      (r.1, p.name :: r.2)

/-- Embedding of the aggregate message built when every provider failed
(lines 136-139): `"All providers failed"`, extended with the last observed
error text when there is one. -/
def allFailedMessage : Option ProviderError → String
  | none => "All providers failed"
  | some e => "All providers failed" ++ ": " ++ e.toMessage

/-- Result of one `get_latest_price` call: the returned quote or the
aggregate error, the service state after the call, and the names of the
providers invoked during the call. -/
structure FetchResult where
  result : Except MarketDataUnavailableError PriceQuote
  service : MarketDataService
  invoked : List String

/-- Embedding of `MarketDataService.get_latest_price` (lines 73-146):
normalize the symbol to uppercase, consult the cache, otherwise walk the
provider list and either cache and return the first success or raise the
aggregate `MarketDataUnavailableError`. -/
def MarketDataService.get_latest_price (svc : MarketDataService) (now : Nat)
    (symbol : String) : FetchResult :=
  let symbol_upper := pyUpper symbol
  let cached := get_from_cache svc.cache now symbol_upper
  match cached.1 with
  | some q => ⟨.ok q, { svc with cache := cached.2 }, []⟩
  | none =>
    let tried := tryProviders symbol_upper now none svc.providers
    match tried.1 with
    | .ok q =>
      ⟨.ok q, { svc with cache := cache_quote cached.2 svc.cache_ttl now q }, tried.2⟩
    | .error last_error =>
      ⟨.error ⟨symbol_upper, allFailedMessage last_error⟩,
        { svc with cache := cached.2 }, tried.2⟩

/-- Sample previous price point used to instantiate hypotheses on concrete
inputs: AAPL at 100.00. -/
def samplePrev : PricePoint := ⟨"AAPL", 100, 0, "USD"⟩

/-- Sample current price point used to instantiate hypotheses on concrete
inputs: AAPL at 101.50. -/
def sampleCur : PricePoint := ⟨"AAPL", Rat.divInt 203 2, 1, "USD"⟩

/-- Sample provider that always fails with a rate-limit classification. -/
def providerA : Provider := ⟨"prov_a", fun _ _ => .error (.rateLimited "prov_a" "quota exhausted")⟩

/-- Sample provider that always fails with an unavailable classification. -/
def providerB : Provider := ⟨"prov_b", fun _ _ => .error (.unavailable "prov_b" "connection refused")⟩

/-- Sample provider that always succeeds with price 100. -/
def providerC : Provider := ⟨"prov_c", fun _ _ => .ok 100⟩

/-- The quote produced by `providerC` for symbol AAPL at instant 0. -/
def sampleQuoteC : PriceQuote := ⟨"AAPL", 100, 0, "prov_c"⟩

/-- Sample orchestrator over providers A (rate-limited), B (unavailable)
and C (succeeds), TTL 60, empty cache. -/
def sampleService : MarketDataService := ⟨[providerA, providerB, providerC], 60, []⟩

/-- Sample orchestrator with a single succeeding provider, TTL 60, empty
cache. -/
def paddedService : MarketDataService := ⟨[providerC], 60, []⟩

/-- Sample orchestrator whose providers all fail. -/
def failingService : MarketDataService := ⟨[providerA, providerB], 60, []⟩

/-- One row of the append-only `price_history` table
(`src/adapters/storage_adapter.py`): the `AUTOINCREMENT` id and the stored
point.  The decimal price round-trips exactly through storage (it is stored
as its string form and re-read with `Decimal`), so the row holds the point
itself. -/
structure StoredRow where
  id : Nat
  point : PricePoint
deriving DecidableEq

/-- Embedding of the `StorageAdapter` price-history state
(`src/adapters/storage_adapter.py`): the rows of the `price_history` table
in insertion order, and the next `AUTOINCREMENT` row id. -/
structure StorageAdapter where
  rows : List StoredRow
  next_id : Nat
deriving DecidableEq

/-- Embedding of `StorageAdapter.save_price` (lines 110-133): insert a new
row and return the fresh row id (`cursor.lastrowid`). -/
def StorageAdapter.save_price (st : StorageAdapter) (p : PricePoint) :
    Nat × StorageAdapter :=
  (st.next_id, ⟨st.rows ++ [⟨st.next_id, p⟩], st.next_id + 1⟩)

/-- Saving a list of points in order through `save_price`, collecting the
returned row ids. -/
def StorageAdapter.save_prices (st : StorageAdapter) :
    List PricePoint → List Nat × StorageAdapter
  | [] => ([], st)
  | p :: ps =>
    let r := st.save_price p
    let rest := r.2.save_prices ps
    (r.1 :: rest.1, rest.2)

/-- Insertion step of the model of the SQL `ORDER BY timestamp DESC` result
order: place a point before the first stored point that is not newer. -/
def insertDesc (p : PricePoint) : List PricePoint → List PricePoint
  | [] => [p]
  | q :: qs => if q.timestamp ≤ p.timestamp then p :: q :: qs else q :: insertDesc p qs

/-- Sort by timestamp descending (insertion sort); the model of the SQL
`ORDER BY timestamp DESC` result order of the history queries. -/
def sortDesc : List PricePoint → List PricePoint
  | [] => []
  | p :: ps => insertDesc p (sortDesc ps)

/-- Rows of the `price_history` table for one symbol: the SQL
`WHERE symbol = ?` filter with the uppercased query symbol
(`symbol.upper()` in all three read queries), in insertion order. -/
def rowsForSymbol (st : StorageAdapter) (symbol : String) : List PricePoint :=
  (st.rows.filter (fun r => decide (r.point.symbol = pyUpper symbol))).map StoredRow.point

/-- Embedding of `StorageAdapter.get_price_history` (lines 201-237): the
rows for the symbol ordered most-recent-first, capped at `limit`
(SQL `LIMIT ?`). -/
def StorageAdapter.get_price_history (st : StorageAdapter) (symbol : String)
    (limit : Nat) : List PricePoint :=
  (sortDesc (rowsForSymbol st symbol)).take limit

/-- Embedding of `StorageAdapter.get_latest_price` (lines 135-166): the
most recent row for the symbol, if any (SQL `LIMIT 1`). -/
def StorageAdapter.get_latest_price (st : StorageAdapter) (symbol : String) :
    Option PricePoint :=
  (sortDesc (rowsForSymbol st symbol)).head?

/-- Embedding of `StorageAdapter.get_previous_price` (lines 168-199): the
second most recent row for the symbol, if any (SQL `LIMIT 1 OFFSET 1`). -/
def StorageAdapter.get_previous_price (st : StorageAdapter) (symbol : String) :
    Option PricePoint :=
  ((sortDesc (rowsForSymbol st symbol)).drop 1).head?

/-- Row ids produced by `k` consecutive saves starting at id `n`. -/
def idRange (n : Nat) : Nat → List Nat
  | 0 => []
  | k + 1 => n :: idRange (n + 1) k

/-- Rows created by saving the given points starting at row id `n`. -/
def mkRows (n : Nat) : List PricePoint → List StoredRow
  | [] => []
  | p :: ps => ⟨n, p⟩ :: mkRows (n + 1) ps

/-- Embedding of the per-symbol loop of `PriceService.get_price_changes`
(`src/services/price_service.py`, lines 101-141): for each symbol
(uppercased), look up the fetched current price and skip absent symbols;
otherwise read the previous stored price, save the current one, and emit a
`PriceChange` only when a previous price existed.  `current_prices` is the
dict built by `fetch_current_prices`, keyed by uppercased symbol; the
changed storage state is returned alongside the change list. -/
def get_price_changes (threshold : Rat) (current_prices : List (String × PricePoint)) :
    StorageAdapter → List String → List PriceChange × StorageAdapter
  | storage, [] => ([], storage)
  | storage, s :: rest =>
    match assocFind current_prices (pyUpper s) with
    | none => get_price_changes threshold current_prices storage rest
    | some current =>
      match storage.get_latest_price (pyUpper s) with
      | none =>
        get_price_changes threshold current_prices (storage.save_price current).2 rest
      | some prev =>
        let r := get_price_changes threshold current_prices
          (storage.save_price current).2 rest
        (PriceChange.calculate (pyUpper s) prev current threshold :: r.1, r.2)

/-- Embedding of `PriceService.get_threshold_breaches`
(`src/services/price_service.py`, lines 143-167): the changes whose
`threshold_exceeded` flag is set. -/
def get_threshold_breaches (threshold : Rat)
    (current_prices : List (String × PricePoint)) (storage : StorageAdapter)
    (symbols : List String) : List PriceChange :=
  (get_price_changes threshold current_prices storage symbols).1.filter
    (fun c => c.threshold_exceeded)

/-- Model of the Python substring test `pat in s`. -/
def strContains (s pat : String) : Bool := decide (pat.data <:+: s.data)

/-- Abstract outcome of the HTTP request a keyed provider makes: either the
request raised (`requests.exceptions.RequestException`: network error,
timeout) or an HTTP response with a status code and a parsed JSON body
arrived. -/
inductive HttpOutcome (β : Type) where
  | transportError (message : String)
  | http (status : Nat) (body : β)

/-- Success tail shared by the four providers: construct the normalized
`PriceQuote(symbol=symbol.upper(), price, timestamp=utcnow(),
provider_name=...)`; a pydantic validation failure (for example a
non-positive price) is caught by the provider's generic exception handler
and re-raised as `ProviderUnavailableError`. -/
def buildQuote (provider : String) (symbol : String) (price : Rat) (now : Nat) :
    Except ProviderError PriceQuote :=
  match mkPriceQuote (pyUpper symbol) price now provider with
  | .ok q => .ok q
  | .error m => .error (.unavailable provider m)

/-- The `"Global Quote"` object of an Alpha Vantage response body:
its optional `"05. price"` field (`none` models both a missing field and a
missing object entry; an empty string is also treated as absent by the
code's truthiness test). -/
structure AVQuote where
  price_str : Option String

/-- Parsed JSON body of an Alpha Vantage GLOBAL_QUOTE response: the
optional `"Error Message"` and `"Note"` fields and the optional non-empty
`"Global Quote"` object (`none` models a missing or empty object, both
falsy in the code). -/
structure AVBody where
  error_message : Option String
  note : Option String
  global_quote : Option AVQuote

/-- Embedding of the `AlphaVantageProvider` state
(`src/adapters/providers/alpha_vantage_provider.py`). -/
structure AlphaVantageProvider where
  api_key : String

/-- Embedding of `AlphaVantageProvider.get_latest_price` (lines 41-154):
missing key fails immediately; HTTP 429 is rate-limited; any other non-200
status, an `"Error Message"`, a missing quote object or price, a parse
failure, and a transport exception are unavailable; a `"Note"` is
rate-limited.  `parseDecimal` abstracts the `Decimal` string constructor
(`none` models the parse exception, caught by the generic handler). -/
def AlphaVantageProvider.get_latest_price (p : AlphaVantageProvider)
    (parseDecimal : String → Option Rat) (symbol : String) (now : Nat)
    (resp : HttpOutcome AVBody) : Except ProviderError PriceQuote :=
  if p.api_key.data.isEmpty then
    .error (.unavailable "alpha_vantage" "API key not configured")
  else
    match resp with
    | .transportError msg => .error (.unavailable "alpha_vantage" msg)
    | .http status body =>
      if status == 429 then
        .error (.rateLimited "alpha_vantage" "API call frequency limit exceeded")
      else if status != 200 then
        .error (.unavailable "alpha_vantage" ("HTTP " ++ toString status))
      else
        match body.error_message with
        | some m => .error (.unavailable "alpha_vantage" m)
        | none =>
          match body.note with
          | some n => .error (.rateLimited "alpha_vantage" n)
          | none =>
            match body.global_quote with
            | none => .error (.unavailable "alpha_vantage" ("No data for " ++ symbol))
            | some gq =>
              match gq.price_str with
              | none => .error (.unavailable "alpha_vantage" ("No price data for " ++ symbol))
              | some s =>
                if s.data.isEmpty then
                  .error (.unavailable "alpha_vantage" ("No price data for " ++ symbol))
                else
                  match parseDecimal s with
                  | none => .error (.unavailable "alpha_vantage" "invalid decimal literal")
                  | some price => buildQuote "alpha_vantage" symbol price now

/-- Parsed JSON body of a Finnhub quote response: the optional `"error"`
field and the optional `"c"` (current price) number.  The price is a JSON
number and `Decimal(str(price))` converts it exactly, so it is carried as a
rational directly. -/
structure FinnhubBody where
  error_field : Option String
  c : Option Rat

/-- Embedding of the `FinnhubProvider` state
(`src/adapters/providers/finnhub_provider.py`). -/
structure FinnhubProvider where
  api_key : String

/-- Embedding of `FinnhubProvider.get_latest_price` (lines 40-146):
missing key fails immediately; HTTP 429 is rate-limited; an `"error"` field
whose lowercased text contains "limit" is rate-limited and otherwise
unavailable; a missing price, any other non-200 status and a transport
exception are unavailable. -/
def FinnhubProvider.get_latest_price (p : FinnhubProvider) (symbol : String)
    (now : Nat) (resp : HttpOutcome FinnhubBody) : Except ProviderError PriceQuote :=
  if p.api_key.data.isEmpty then
    .error (.unavailable "finnhub" "API key not configured")
  else
    match resp with
    | .transportError msg => .error (.unavailable "finnhub" msg)
    | .http status body =>
      if status == 429 then
        .error (.rateLimited "finnhub" "API call frequency limit exceeded")
      else if status != 200 then
        .error (.unavailable "finnhub" ("HTTP " ++ toString status))
      else
        match body.error_field with
        | some emsg =>
          if strContains (pyLower emsg) "limit" then
            .error (.rateLimited "finnhub" emsg)
          else
            .error (.unavailable "finnhub" emsg)
        | none =>
          match body.c with
          | none => .error (.unavailable "finnhub" ("No price data for " ++ symbol))
          | some price => buildQuote "finnhub" symbol price now

/-- Parsed JSON body of a Twelve Data price response: whether
`data["status"] == "error"`, the optional `"message"` field, and the
optional `"price"` string (an empty string is treated as absent by the
code's truthiness test). -/
structure TwelveDataBody where
  status_error : Bool
  message : Option String
  price : Option String

/-- Embedding of the `TwelveDataProvider` state
(`src/adapters/providers/twelve_data_provider.py`). -/
structure TwelveDataProvider where
  api_key : String

/-- Embedding of `TwelveDataProvider.get_latest_price` (lines 40-160):
missing key fails immediately; HTTP 429 is rate-limited; an error-status
body whose lowercased message contains "limit" or "quota" is rate-limited
and otherwise unavailable; a missing/empty/unparseable price, any other
non-200 status and a transport exception are unavailable. -/
def TwelveDataProvider.get_latest_price (p : TwelveDataProvider)
    (parseDecimal : String → Option Rat) (symbol : String) (now : Nat)
    (resp : HttpOutcome TwelveDataBody) : Except ProviderError PriceQuote :=
  if p.api_key.data.isEmpty then
    .error (.unavailable "twelve_data" "API key not configured")
  else
    match resp with
    | .transportError msg => .error (.unavailable "twelve_data" msg)
    | .http status body =>
      if status == 429 then
        .error (.rateLimited "twelve_data" "API call frequency limit exceeded")
      else if status != 200 then
        .error (.unavailable "twelve_data" ("HTTP " ++ toString status))
      else if body.status_error then
        if strContains (pyLower (body.message.getD "Unknown error")) "limit"
            || strContains (pyLower (body.message.getD "Unknown error")) "quota" then
          .error (.rateLimited "twelve_data" (body.message.getD "Unknown error"))
        else
          .error (.unavailable "twelve_data" (body.message.getD "Unknown error"))
      else
        match body.price with
        | none => .error (.unavailable "twelve_data" ("No price data for " ++ symbol))
        | some s =>
          if s.data.isEmpty then
            .error (.unavailable "twelve_data" ("No price data for " ++ symbol))
          else
            match parseDecimal s with
            | none => .error (.unavailable "twelve_data" "invalid decimal literal")
            | some price => buildQuote "twelve_data" symbol price now

/-- True when the text signals HTTP 429 throttling (contains "429" or
"Too Many Requests"), as tested by the Yahoo Finance provider. -/
def mentions429 (s : String) : Bool :=
  strContains s "429" || strContains s "Too Many Requests"

/-- Abstract outcome of the `yfinance` calls made by the Yahoo Finance
provider: either some call raised an exception with the given text, or the
`ticker.info` dict was obtained with an optional `"error"` field,
`price_field` the first non-None among regularMarketPrice, currentPrice and
previousClose, and `history_close` the last close of the one-day history
fallback (`none` when that frame is empty). -/
inductive YFOutcome where
  | raised (message : String)
  | info (error_field : Option String) (price_field : Option Rat)
      (history_close : Option Rat)

/-- Embedding of `YahooFinanceProvider.get_latest_price`
(`src/adapters/providers/yahoo_finance_provider.py`, lines 32-140): an
`"error"` field or a raised exception mentioning 429 is rate-limited; any
other raised exception and a missing price (both direct fields and history
fallback empty) are unavailable; the provider needs no credentials.  The
prices are floats converted exactly through `Decimal(str(price))`, carried
as rationals. -/
def yahooFinanceGetLatestPrice (symbol : String) (now : Nat)
    (outcome : YFOutcome) : Except ProviderError PriceQuote :=
  match outcome with
  | .raised msg =>
    if mentions429 msg then .error (.rateLimited "yahoo_finance" msg)
    else .error (.unavailable "yahoo_finance" msg)
  | .info error_field price_field history_close =>
    if (match error_field with | some emsg => mentions429 emsg | none => false) then
      .error (.rateLimited "yahoo_finance" "Too many requests")
    else
      match price_field with
      | some price => buildQuote "yahoo_finance" symbol price now
      | none =>
        match history_close with
        | none =>
          .error (.unavailable "yahoo_finance" ("No price data available for " ++ symbol))
        | some price => buildQuote "yahoo_finance" symbol price now

/-- Sample Alpha Vantage provider with a configured key. -/
def avSample : AlphaVantageProvider := ⟨"demo_key"⟩

/-- Sample successful Alpha Vantage response body with price string 100. -/
def avOkBody : AVBody := ⟨none, none, some ⟨some "100"⟩⟩

/-- Sample decimal parser mapping every string to 100. -/
def parse100 : String → Option Rat := fun _ => some 100

/-- The quote the sample Alpha Vantage call produces. -/
def sampleQuoteAV : PriceQuote := ⟨"AAPL", 100, 0, "alpha_vantage"⟩

/-- Sample storage holding a single AAPL row. -/
def sampleStorage : StorageAdapter := ⟨[⟨1, samplePrev⟩], 2⟩

/-- Sample empty storage (fresh database, ids start at 1). -/
def emptyStorage : StorageAdapter := ⟨[], 1⟩

/-- Sample first observation for a previously unseen symbol. -/
def sampleTsla : PricePoint := ⟨"TSLA", 200, 5, "USD"⟩

/-- C1: for every pair of price points with `previous.price > 0`,
`PriceChange.calculate` returns `change_amount = current.price -
previous.price` and `change_percent = change_amount / previous.price * 100`
exactly (decimal arithmetic modelled as exact rationals), and sets
`threshold_exceeded` to the inclusive comparison `abs(change_percent) >=
threshold`. -/
theorem calculate_change_formula (symbol : String) (previous current : PricePoint)
    (threshold : Rat) (hpos : 0 < previous.price) :
    (PriceChange.calculate symbol previous current threshold).change_amount
      = current.price - previous.price ∧
    (PriceChange.calculate symbol previous current threshold).change_percent
      = (current.price - previous.price) / previous.price * 100 ∧
    ((PriceChange.calculate symbol previous current threshold).threshold_exceeded = true
      ↔ threshold ≤ |(current.price - previous.price) / previous.price * 100|) := by
  refine ⟨rfl, rfl, ?_⟩
  simp [PriceChange.calculate]

/-- C1 witness: at previous = 100.00, current = 101.50, threshold = 1.5 the
change is exactly 1.5 percent and the inclusive comparison flags a breach. -/
theorem calculate_change_formula_witness :
    (0 : Rat) < samplePrev.price ∧
    (PriceChange.calculate "AAPL" samplePrev sampleCur (3/2)).threshold_exceeded = true := by
  have h := calculate_change_formula "AAPL" samplePrev sampleCur (3/2) (by norm_num [samplePrev])
  refine ⟨by norm_num [samplePrev], ?_⟩
  rw [h.2.2]
  show (3/2 : Rat) ≤ |(sampleCur.price - samplePrev.price) / samplePrev.price * 100|
  rw [show sampleCur.price = Rat.divInt 203 2 from rfl,
    show samplePrev.price = 100 from rfl]
  rw [abs_of_pos (by norm_num [Rat.divInt])]
  norm_num [Rat.divInt]

/-- C10: a `PricePoint` accepted by the pydantic constructor has a strictly
positive price, so for two such points the division inside
`PriceChange.calculate` is by a nonzero number and genuinely inverts the
multiplication, and the constructed `PriceChange` carries strictly positive
`previous_price` and `current_price`. -/
theorem calculate_division_safe (s1 s2 : String) (p1 p2 : Rat) (t1 t2 : Nat)
    (c1 c2 : String) (prev cur : PricePoint) (symbol : String) (threshold : Rat)
    (h1 : mkPricePoint s1 p1 t1 c1 = .ok prev)
    (h2 : mkPricePoint s2 p2 t2 c2 = .ok cur) :
    0 < prev.price ∧ 0 < cur.price ∧ prev.price ≠ 0 ∧
    (PriceChange.calculate symbol prev cur threshold).change_percent * prev.price
      = (cur.price - prev.price) * 100 ∧
    0 < (PriceChange.calculate symbol prev cur threshold).previous_price ∧
    0 < (PriceChange.calculate symbol prev cur threshold).current_price := by
  have hp : ∀ s p t c (q : PricePoint), mkPricePoint s p t c = .ok q → 0 < q.price := by
    intro s p t c q h
    unfold mkPricePoint at h
    split at h
    · exact absurd h (by simp)
    · split at h
      · split at h
        · exact absurd h (by simp)
        · rename_i hpp _
          injection h with h
          subst h
          exact hpp
      · exact absurd h (by simp)
  have hprev := hp _ _ _ _ _ h1
  have hcur := hp _ _ _ _ _ h2
  have hne : prev.price ≠ 0 := ne_of_gt hprev
  refine ⟨hprev, hcur, hne, ?_, hprev, hcur⟩
  show (cur.price - prev.price) / prev.price * 100 * prev.price = (cur.price - prev.price) * 100
  field_simp

/-- C10 witness: both sample points pass construction, and the division in
`calculate` at those points genuinely inverts the multiplication. -/
theorem calculate_division_safe_witness :
    mkPricePoint "AAPL" 100 0 "USD" = .ok samplePrev ∧
    mkPricePoint "AAPL" (Rat.divInt 203 2) 1 "USD" = .ok sampleCur ∧
    (PriceChange.calculate "AAPL" samplePrev sampleCur (3/2)).change_percent
        * samplePrev.price
      = (sampleCur.price - samplePrev.price) * 100 := by
  have e1 : mkPricePoint "AAPL" 100 0 "USD" = .ok samplePrev := rfl
  have e2 : mkPricePoint "AAPL" (Rat.divInt 203 2) 1 "USD" = .ok sampleCur := rfl
  exact ⟨e1, e2, (calculate_division_safe "AAPL" "AAPL" 100 (Rat.divInt 203 2)
    0 1 "USD" "USD" samplePrev sampleCur "AAPL" (3/2) e1 e2).2.2.2.1⟩

/-- A quote accepted by the pydantic `PriceQuote` constructor has a strictly
positive price and carries the given timestamp and the normalized provider
name. -/
theorem mkPriceQuote_ok (symbol : String) (price : Rat) (t : Nat) (pname : String)
    (q : PriceQuote) (h : mkPriceQuote symbol price t pname = .ok q) :
    0 < q.price ∧ q.price = price ∧ q.timestamp = t ∧
    q.provider_name = pyStrip (pyLower pname) := by
  unfold mkPriceQuote at h
  split at h
  · exact absurd h (by simp)
  · split at h
    · split at h
      · exact absurd h (by simp)
      · rename_i hpp _
        injection h with h
        subst h
        exact ⟨hpp, rfl, rfl, rfl⟩
    · exact absurd h (by simp)

/-- A successful provider call yields a quote with a positive price, the
call instant as timestamp, and the provider's normalized name. -/
theorem provider_ok_fields (p : Provider) (symbol : String) (now : Nat)
    (q : PriceQuote) (h : p.get_latest_price symbol now = .ok q) :
    0 < q.price ∧ q.timestamp = now ∧ q.provider_name = pyStrip (pyLower p.name) := by
  unfold Provider.get_latest_price at h
  split at h
  · exact absurd h (by simp)
  · split at h
    · rename_i hq
      injection h with h
      subst h
      have hh := mkPriceQuote_ok _ _ _ _ _ hq
      exact ⟨hh.1, hh.2.2.1, hh.2.2.2⟩
    · exact absurd h (by simp)

/-- The provider loop returns the first success: providers before it all
fail, it is invoked last, and nothing after it is invoked. -/
theorem tryProviders_first_success (symbol : String) (now : Nat) (q : PriceQuote)
    (rest : List Provider) (succ : Provider)
    (hsucc : succ.get_latest_price symbol now = .ok q) :
    ∀ (front : List Provider) (last : Option ProviderError),
      (∀ p ∈ front, ∃ e, p.get_latest_price symbol now = .error e) →
      tryProviders symbol now last (front ++ succ :: rest)
        = (.ok q, front.map Provider.name ++ [succ.name]) := by
  intro front
  induction front with
  | nil =>
    intro last _
    simp [tryProviders, hsucc]
  | cons p front ih =>
    intro last hfail
    obtain ⟨e, he⟩ := hfail p (List.mem_cons_self p front)
    simp only [List.cons_append, tryProviders, he, List.append_eq]
    rw [ih (some e) (fun p hp => hfail p (List.mem_cons_of_mem _ hp))]
    simp

/-- When every provider fails, the provider loop returns the error of the
last provider and invokes every provider in order. -/
theorem tryProviders_all_fail (symbol : String) (now : Nat)
    (plast : Provider) (e : ProviderError)
    (hlast : plast.get_latest_price symbol now = .error e) :
    ∀ (ps : List Provider) (last : Option ProviderError),
      (∀ p ∈ ps, ∃ e', p.get_latest_price symbol now = .error e') →
      tryProviders symbol now last (ps ++ [plast])
        = (.error (some e), ps.map Provider.name ++ [plast.name]) := by
  intro ps
  induction ps with
  | nil =>
    intro last _
    simp [tryProviders, hlast]
  | cons p ps ih =>
    intro last hfail
    obtain ⟨e', he⟩ := hfail p (List.mem_cons_self p ps)
    simp only [List.cons_append, tryProviders, he, List.append_eq]
    rw [ih (some e') (fun p hp => hfail p (List.mem_cons_of_mem _ hp))]
    simp

/-- Dict assignment makes the key findable with the assigned value. -/
theorem assocFind_insert {α : Type} (l : List (String × α)) (k : String) (v : α) :
    assocFind (assocInsert l k v) k = some v := by
  simp [assocInsert, assocFind]

/-- Dict deletion makes the key unfindable. -/
theorem assocFind_erase {α : Type} (l : List (String × α)) (k : String) :
    assocFind (assocErase l k) k = none := by
  induction l with
  | nil => rfl
  | cons kv l ih =>
    obtain ⟨a, b⟩ := kv
    by_cases h : a = k
    · simp [assocErase, h, ih]
    · simp [assocErase, assocFind, h, ih]

/-- C2: on a cache miss, `get_latest_price` attempts providers strictly in
list order, stops at the first success without invoking any later provider,
returns that provider's quote (carrying the provider's name), and caches it
with expiry `now + TTL`. -/
theorem fallback_first_success (svc : MarketDataService) (symbol : String) (now : Nat)
    (front rest : List Provider) (succ : Provider) (q : PriceQuote)
    (hprov : svc.providers = front ++ succ :: rest)
    (hmiss : (get_from_cache svc.cache now (pyUpper symbol)).1 = none)
    (hfail : ∀ p ∈ front, ∃ e, p.get_latest_price (pyUpper symbol) now = .error e)
    (hsucc : succ.get_latest_price (pyUpper symbol) now = .ok q)
    (hname : pyStrip (pyLower succ.name) = succ.name) :
    (svc.get_latest_price now symbol).result = .ok q ∧
    q.provider_name = succ.name ∧
    (svc.get_latest_price now symbol).invoked = front.map Provider.name ++ [succ.name] ∧
    assocFind (svc.get_latest_price now symbol).service.cache q.symbol
      = some ⟨q, now + svc.cache_ttl⟩ := by
  have htry := tryProviders_first_success (pyUpper symbol) now q rest succ hsucc front none hfail
  have hq := provider_ok_fields succ (pyUpper symbol) now q hsucc
  have hres : svc.get_latest_price now symbol
      = ⟨.ok q,
         { svc with cache := (cache_quote (get_from_cache svc.cache now (pyUpper symbol)).2
             svc.cache_ttl now q) },
         front.map Provider.name ++ [succ.name]⟩ := by
    simp only [MarketDataService.get_latest_price, hmiss, hprov, htry]
  rw [hres]
  refine ⟨rfl, hq.2.2.trans hname, rfl, ?_⟩
  simp only [cache_quote]
  exact assocFind_insert _ _ _

/-- C2 witness: with providers [A rate-limited, B unavailable, C succeeds],
the call returns C's quote carrying C's name and invokes exactly A, B, C in
that order. -/
theorem fallback_first_success_witness :
    (sampleService.get_latest_price 0 "AAPL").result = .ok sampleQuoteC ∧
    sampleQuoteC.provider_name = "prov_c" ∧
    (sampleService.get_latest_price 0 "AAPL").invoked = ["prov_a", "prov_b", "prov_c"] := by
  have h := fallback_first_success sampleService "AAPL" 0 [providerA, providerB] []
    providerC sampleQuoteC rfl rfl
    (by intro p hp; fin_cases hp
        · exact ⟨_, rfl⟩
        · exact ⟨_, rfl⟩)
    rfl rfl
  exact ⟨h.1, h.2.1, by rw [h.2.2.1]; rfl⟩

/-- When the cache holds a non-expired entry for the normalized symbol, the
call returns the cached quote, invokes no provider, and leaves the service
state unchanged. -/
theorem get_latest_price_cache_hit (svc : MarketDataService) (symbol : String)
    (now : Nat) (e : CacheEntry)
    (hfind : assocFind svc.cache (pyUpper symbol) = some e)
    (hnotexp : e.is_expired now = false) :
    svc.get_latest_price now symbol = ⟨.ok e.quote, svc, []⟩ := by
  have hc : get_from_cache svc.cache now (pyUpper symbol) = (some e.quote, svc.cache) := by
    simp only [get_from_cache, hfind, hnotexp]
    simp
  simp only [MarketDataService.get_latest_price, hc]

/-- When the cache holds an expired entry for the normalized symbol, the
lookup misses, the entry is evicted during the lookup, and the provider
list is walked again. -/
theorem get_latest_price_cache_expired (svc : MarketDataService) (symbol : String)
    (now : Nat) (e : CacheEntry)
    (hfind : assocFind svc.cache (pyUpper symbol) = some e)
    (hexp : e.is_expired now = true) :
    (get_from_cache svc.cache now (pyUpper symbol)).1 = none ∧
    assocFind (get_from_cache svc.cache now (pyUpper symbol)).2 (pyUpper symbol) = none ∧
    (svc.get_latest_price now symbol).invoked
      = (tryProviders (pyUpper symbol) now none svc.providers).2 := by
  have hc : get_from_cache svc.cache now (pyUpper symbol)
      = (none, assocErase svc.cache (pyUpper symbol)) := by
    simp only [get_from_cache, hfind, hexp]
    simp
  refine ⟨by rw [hc], by rw [hc]; exact assocFind_erase _ _, ?_⟩
  simp only [MarketDataService.get_latest_price, hc]
  rcases htry : (tryProviders (pyUpper symbol) now none svc.providers).1 with l | q <;>
    simp [htry]

/-- C3: a call that fetches a quote from the providers caches it; a second
call strictly within the TTL window returns the cached quote with no
provider invoked and leaves the state unchanged, while a call at or after
expiry misses, evicts the entry during the lookup, and walks the provider
list again. -/
theorem cache_ttl_idempotence (svc : MarketDataService) (symbol : String)
    (t0 t1 : Nat) (q : PriceQuote) (inv : List String)
    (hmiss : (get_from_cache svc.cache t0 (pyUpper symbol)).1 = none)
    (hfetch : tryProviders (pyUpper symbol) t0 none svc.providers = (.ok q, inv))
    (hqs : q.symbol = pyUpper symbol) :
    (svc.get_latest_price t0 symbol).result = .ok q ∧
    (svc.get_latest_price t0 symbol).invoked = inv ∧
    (t1 < t0 + svc.cache_ttl →
      ((svc.get_latest_price t0 symbol).service.get_latest_price t1 symbol).result = .ok q ∧
      ((svc.get_latest_price t0 symbol).service.get_latest_price t1 symbol).invoked = [] ∧
      ((svc.get_latest_price t0 symbol).service.get_latest_price t1 symbol).service
        = (svc.get_latest_price t0 symbol).service) ∧
    (t0 + svc.cache_ttl ≤ t1 →
      (get_from_cache (svc.get_latest_price t0 symbol).service.cache t1 (pyUpper symbol)).1
        = none ∧
      assocFind (get_from_cache (svc.get_latest_price t0 symbol).service.cache t1
          (pyUpper symbol)).2 (pyUpper symbol) = none ∧
      ((svc.get_latest_price t0 symbol).service.get_latest_price t1 symbol).invoked
        = (tryProviders (pyUpper symbol) t1 none svc.providers).2) := by
  have hres : svc.get_latest_price t0 symbol
      = ⟨.ok q,
         { svc with cache := (cache_quote (get_from_cache svc.cache t0 (pyUpper symbol)).2
             svc.cache_ttl t0 q) },
         inv⟩ := by
    simp only [MarketDataService.get_latest_price, hmiss, hfetch]
  rw [hres]
  have hfind : assocFind (cache_quote (get_from_cache svc.cache t0 (pyUpper symbol)).2
      svc.cache_ttl t0 q) (pyUpper symbol) = some ⟨q, t0 + svc.cache_ttl⟩ := by
    rw [cache_quote, hqs]
    exact assocFind_insert _ _ _
  refine ⟨rfl, rfl, ?_, ?_⟩
  · intro hlt
    have h2 := get_latest_price_cache_hit
      ⟨svc.providers, svc.cache_ttl,
        cache_quote (get_from_cache svc.cache t0 (pyUpper symbol)).2 svc.cache_ttl t0 q⟩
      symbol t1 ⟨q, t0 + svc.cache_ttl⟩ hfind
      (by simp only [CacheEntry.is_expired, decide_eq_false_iff_not]; omega)
    exact ⟨by rw [h2], by rw [h2], by rw [h2]⟩
  · intro hge
    have h2 := get_latest_price_cache_expired
      ⟨svc.providers, svc.cache_ttl,
        cache_quote (get_from_cache svc.cache t0 (pyUpper symbol)).2 svc.cache_ttl t0 q⟩
      symbol t1 ⟨q, t0 + svc.cache_ttl⟩ hfind
      (by simp only [CacheEntry.is_expired, decide_eq_true_eq]; omega)
    exact h2

/-- C3 witness: with a single succeeding provider and TTL 60, the call at
instant 0 invokes the provider; the call at instant 30 is served from cache
with no provider invoked; the call at instant 60 (expiry is inclusive)
walks the provider list again. -/
theorem cache_ttl_idempotence_witness :
    (paddedService.get_latest_price 0 "AAPL").invoked = ["prov_c"] ∧
    ((paddedService.get_latest_price 0 "AAPL").service.get_latest_price 30 "AAPL").invoked
      = [] ∧
    ((paddedService.get_latest_price 0 "AAPL").service.get_latest_price 60 "AAPL").invoked
      = ["prov_c"] := by
  have h := cache_ttl_idempotence paddedService "AAPL" 0 30 sampleQuoteC ["prov_c"]
    rfl rfl rfl
  have h' := cache_ttl_idempotence paddedService "AAPL" 0 60 sampleQuoteC ["prov_c"]
    rfl rfl rfl
  refine ⟨h.2.1, (h.2.2.1 (by decide)).2.1, ?_⟩
  rw [(h'.2.2.2 (by decide)).2.2]
  rfl

/-- C5: when every provider fails, `get_latest_price` returns the single
aggregate `MarketDataUnavailableError` (distinguishable from a quote by
type), whose message contains the uppercased symbol and embeds the message
of the last observed provider error. -/
theorem all_fail_aggregate (svc : MarketDataService) (symbol : String) (now : Nat)
    (ps : List Provider) (plast : Provider) (e : ProviderError)
    (hprov : svc.providers = ps ++ [plast])
    (hmiss : (get_from_cache svc.cache now (pyUpper symbol)).1 = none)
    (hfail : ∀ p ∈ ps, ∃ e', p.get_latest_price (pyUpper symbol) now = .error e')
    (hlast : plast.get_latest_price (pyUpper symbol) now = .error e) :
    (svc.get_latest_price now symbol).result
      = .error ⟨pyUpper symbol, allFailedMessage (some e)⟩ ∧
    (∃ pre post, MarketDataUnavailableError.toMessage
        ⟨pyUpper symbol, allFailedMessage (some e)⟩ = pre ++ (pyUpper symbol ++ post)) ∧
    (∃ pre, MarketDataUnavailableError.toMessage
        ⟨pyUpper symbol, allFailedMessage (some e)⟩ = pre ++ e.toMessage) := by
  have htry := tryProviders_all_fail (pyUpper symbol) now plast e hlast ps none hfail
  have hmsg : allFailedMessage (some e) = "All providers failed: " ++ e.toMessage := by
    show "All providers failed" ++ ": " ++ e.toMessage = _
    rw [String.append_assoc]
    rfl
  have hne : (allFailedMessage (some e)).data.isEmpty = false := by
    rw [hmsg, String.data_append]
    rfl
  have hfull : MarketDataUnavailableError.toMessage
      ⟨pyUpper symbol, allFailedMessage (some e)⟩
      = "Market data unavailable for " ++ pyUpper symbol
        ++ (": " ++ ("All providers failed: " ++ e.toMessage)) := by
    simp only [MarketDataUnavailableError.toMessage, hne, hmsg]
    simp
  refine ⟨?_, ?_, ?_⟩
  · simp only [MarketDataService.get_latest_price, hmiss, hprov, htry]
  · exact ⟨"Market data unavailable for ",
      ": " ++ ("All providers failed: " ++ e.toMessage),
      by rw [hfull, String.append_assoc]⟩
  · refine ⟨"Market data unavailable for " ++ pyUpper symbol ++ ": "
        ++ "All providers failed: ", ?_⟩
    rw [hfull]
    simp only [String.append_assoc]

/-- C5 witness: with two failing providers, calling for symbol MSFT yields
the aggregate error with symbol MSFT and a message embedding the last
provider's error text. -/
theorem all_fail_aggregate_witness :
    (failingService.get_latest_price 0 "MSFT").result
      = .error ⟨"MSFT", allFailedMessage (some (.unavailable "prov_b" "connection refused"))⟩ ∧
    (∃ pre post, MarketDataUnavailableError.toMessage
        ⟨"MSFT", allFailedMessage (some (.unavailable "prov_b" "connection refused"))⟩
      = pre ++ ("MSFT" ++ post)) := by
  have h := all_fail_aggregate failingService "MSFT" 0 [providerA] providerB
    (.unavailable "prov_b" "connection refused") rfl rfl
    (by intro p hp; fin_cases hp; exact ⟨_, rfl⟩) rfl
  exact ⟨h.1, h.2.1⟩

/-- C4 counterexample: with one always-succeeding provider and TTL 60, the
orchestrator only uppercases (never strips) the lookup key, so after a
first call with the padded input cached its quote under the validated key
AAPL, a second padded call misses the cache and invokes the provider again,
while the plain lowercase input hits the cache; likewise a history store
whose rows carry symbol AAPL returns nothing for the padded lookup.  The
padded input therefore does not resolve to the cache entry and history rows
of key AAPL, contradicting the claim. -/
theorem symbol_whitespace_counterexample :
    ((paddedService.get_latest_price 0 "  aapl  ").service.get_latest_price 1 "  aapl  ").invoked
      = ["prov_c"] ∧
    ((paddedService.get_latest_price 0 "  aapl  ").service.get_latest_price 1 "aapl").invoked
      = [] ∧
    sampleStorage.get_latest_price "  AAPL  " = none ∧
    sampleStorage.get_latest_price "AAPL" = some samplePrev := by
  exact ⟨rfl, rfl, rfl, rfl⟩

/-- C4 (amended): the inputs aapl and AAPL resolve to identical behaviour of
the orchestrator and of the history store — the same cache entry and the
same history rows under the single normalized key AAPL — and the padded
input is normalized to AAPL whenever a model object is constructed through
`validate_stock_symbol`; but as a raw lookup argument the padded input is
only uppercased, not stripped, so it does not resolve to the AAPL entry. -/
theorem symbol_normalization_amended (svc : MarketDataService) (now : Nat)
    (st : StorageAdapter) (limit : Nat) :
    svc.get_latest_price now "aapl" = svc.get_latest_price now "AAPL" ∧
    st.get_latest_price "aapl" = st.get_latest_price "AAPL" ∧
    st.get_price_history "aapl" limit = st.get_price_history "AAPL" limit ∧
    validate_stock_symbol "  AAPL  " = .ok "AAPL" ∧
    pyUpper "  AAPL  " ≠ "AAPL" := by
  have hu : pyUpper "aapl" = pyUpper "AAPL" := rfl
  refine ⟨?_, ?_, ?_, rfl, by decide⟩
  · simp only [MarketDataService.get_latest_price, hu]
  · simp only [StorageAdapter.get_latest_price, rowsForSymbol, hu]
  · simp only [StorageAdapter.get_price_history, rowsForSymbol, hu]

/-- C6: for a symbol with no stored history, one pipeline run saves the
freshly fetched quote to the history store but produces no `PriceChange`
for that symbol, so the breach list is empty — a skip, not an error. -/
theorem first_observation_skip (threshold : Rat) (storage : StorageAdapter)
    (s : String) (current : PricePoint)
    (hnoprev : storage.get_latest_price (pyUpper s) = none) :
    (get_price_changes threshold [(pyUpper s, current)] storage [s]).1 = [] ∧
    (get_price_changes threshold [(pyUpper s, current)] storage [s]).2.rows
      = storage.rows ++ [⟨storage.next_id, current⟩] ∧
    get_threshold_breaches threshold [(pyUpper s, current)] storage [s] = [] := by
  have hfind : assocFind [(pyUpper s, current)] (pyUpper s) = some current := by
    simp [assocFind]
  have h : get_price_changes threshold [(pyUpper s, current)] storage [s]
      = ([], (storage.save_price current).2) := by
    simp only [get_price_changes, hfind, hnoprev]
  refine ⟨by rw [h], by rw [h]; rfl, ?_⟩
  unfold get_threshold_breaches
  rw [h]
  rfl

/-- C6 witness: the first observation of TSLA on an empty store yields no
changes and no breaches, while the point is persisted. -/
theorem first_observation_skip_witness :
    (get_price_changes (3/2) [(pyUpper "TSLA", sampleTsla)] emptyStorage ["TSLA"]).1 = [] ∧
    (get_price_changes (3/2) [(pyUpper "TSLA", sampleTsla)] emptyStorage ["TSLA"]).2.rows
      = [⟨1, sampleTsla⟩] ∧
    get_threshold_breaches (3/2) [(pyUpper "TSLA", sampleTsla)] emptyStorage ["TSLA"] = [] := by
  have h := first_observation_skip (3/2) emptyStorage "TSLA" sampleTsla rfl
  exact ⟨h.1, h.2.1, h.2.2⟩

/-- The ids returned by consecutive saves are those counting up from the
initial next id, the rows are appended in order, and the next id advances
by the number of saves. -/
theorem save_prices_spec (pts : List PricePoint) :
    ∀ st : StorageAdapter,
      (st.save_prices pts).1 = idRange st.next_id pts.length ∧
      (st.save_prices pts).2.rows = st.rows ++ mkRows st.next_id pts ∧
      (st.save_prices pts).2.next_id = st.next_id + pts.length := by
  induction pts with
  | nil =>
    intro st
    simp [StorageAdapter.save_prices, mkRows, idRange]
  | cons p ps ih =>
    intro st
    have h := ih ⟨st.rows ++ [⟨st.next_id, p⟩], st.next_id + 1⟩
    simp only [StorageAdapter.save_prices, StorageAdapter.save_price] at h ⊢
    refine ⟨?_, ?_, ?_⟩
    · rw [h.1]
      simp [idRange, List.length_cons]
    · rw [h.2.1]
      simp [mkRows]
    · rw [h.2.2]
      simp [List.length_cons]
      omega

/-- Ids counting up from `n` are strictly increasing and bounded below by
`n`. -/
theorem idRange_pairwise : ∀ (k n : Nat),
    List.Pairwise (· < ·) (idRange n k) ∧ ∀ m ∈ idRange n k, n ≤ m := by
  intro k
  induction k with
  | zero =>
    intro n
    exact ⟨List.Pairwise.nil, fun m hm => absurd hm (by simp [idRange])⟩
  | succ k ih =>
    intro n
    have h := ih (n + 1)
    refine ⟨List.Pairwise.cons (fun m hm => lt_of_lt_of_le (Nat.lt_succ_self n) (h.2 m hm)) h.1, ?_⟩
    intro m hm
    rcases List.mem_cons.mp hm with rfl | hm
    · exact Nat.le_refl m
    · exact Nat.le_trans (Nat.le_succ n) (h.2 m hm)

/-- Saved rows whose points all carry the queried symbol all survive the
symbol filter and project back to the saved points. -/
theorem rowsForSymbol_mkRows (sym : String) :
    ∀ (pts : List PricePoint) (n : Nat), (∀ p ∈ pts, p.symbol = pyUpper sym) →
      ((mkRows n pts).filter (fun r => decide (r.point.symbol = pyUpper sym))).map
        StoredRow.point = pts := by
  intro pts
  induction pts with
  | nil => intro n _; rfl
  | cons p ps ih =>
    intro n hall
    have hp : p.symbol = pyUpper sym := hall p (List.mem_cons_self p ps)
    simp only [mkRows, List.filter_cons]
    rw [if_pos (by simp [hp])]
    simp only [List.map_cons]
    rw [ih (n + 1) (fun q hq => hall q (List.mem_cons_of_mem _ hq))]

/-- Inserting a point older than every point of the list puts it at the
end. -/
theorem insertDesc_older (p : PricePoint) :
    ∀ l : List PricePoint, (∀ q ∈ l, p.timestamp < q.timestamp) →
      insertDesc p l = l ++ [p] := by
  intro l
  induction l with
  | nil => intro; rfl
  | cons q qs ih =>
    intro hall
    have hq : p.timestamp < q.timestamp := hall q (List.mem_cons_self q qs)
    simp only [insertDesc]
    rw [if_neg (by omega)]
    rw [ih (fun r hr => hall r (List.mem_cons_of_mem _ hr))]
    simp

/-- Sorting a strictly time-ascending list most-recent-first reverses it. -/
theorem sortDesc_ascending :
    ∀ pts : List PricePoint,
      List.Pairwise (fun a b => a.timestamp < b.timestamp) pts →
      sortDesc pts = pts.reverse := by
  intro pts
  induction pts with
  | nil => intro; rfl
  | cons p ps ih =>
    intro hp
    have h1 : ∀ q ∈ ps, p.timestamp < q.timestamp := (List.pairwise_cons.mp hp).1
    simp only [sortDesc, ih (List.pairwise_cons.mp hp).2]
    rw [insertDesc_older p ps.reverse (fun q hq => h1 q (List.mem_reverse.mp hq))]
    simp

/-- C7: saving N quotes with strictly increasing timestamps for a symbol
into a store holding no rows for that symbol returns monotonically
increasing fresh row ids, appends the rows without touching the existing
ones, and `history(symbol, limit=N)` returns exactly those N points
most-recent-first with price and timestamp preserved; for every limit the
returned sequence is capped at that limit. -/
theorem history_roundtrip (st : StorageAdapter) (sym : String) (pts : List PricePoint)
    (hsym : ∀ p ∈ pts, p.symbol = pyUpper sym)
    (hfresh : rowsForSymbol st sym = [])
    (hmono : List.Pairwise (fun a b => a.timestamp < b.timestamp) pts) :
    (st.save_prices pts).1 = idRange st.next_id pts.length ∧
    List.Pairwise (· < ·) (st.save_prices pts).1 ∧
    (st.save_prices pts).2.rows = st.rows ++ mkRows st.next_id pts ∧
    (st.save_prices pts).2.get_price_history sym pts.length = pts.reverse ∧
    ∀ limit : Nat, ((st.save_prices pts).2.get_price_history sym limit).length ≤ limit := by
  have hspec := save_prices_spec pts st
  have hr : rowsForSymbol (st.save_prices pts).2 sym = pts := by
    unfold rowsForSymbol
    rw [hspec.2.1, List.filter_append, List.map_append]
    have h1 : (st.rows.filter (fun r => decide (r.point.symbol = pyUpper sym))).map
        StoredRow.point = [] := hfresh
    rw [h1, rowsForSymbol_mkRows sym pts st.next_id hsym]
    simp
  refine ⟨hspec.1, ?_, hspec.2.1, ?_, ?_⟩
  · rw [hspec.1]
    exact (idRange_pairwise pts.length st.next_id).1
  · unfold StorageAdapter.get_price_history
    rw [hr, sortDesc_ascending pts hmono]
    exact List.take_of_length_le (by simp)
  · intro limit
    unfold StorageAdapter.get_price_history
    exact (List.length_take limit _).trans_le (Nat.min_le_left _ _)

/-- C7 witness: saving the two sample AAPL points into an empty store
returns ids [1, 2] and the two-point history most-recent-first. -/
theorem history_roundtrip_witness :
    (emptyStorage.save_prices [samplePrev, sampleCur]).1 = [1, 2] ∧
    (emptyStorage.save_prices [samplePrev, sampleCur]).2.get_price_history "AAPL" 2
      = [sampleCur, samplePrev] ∧
    ((emptyStorage.save_prices [samplePrev, sampleCur]).2.get_price_history "AAPL" 1).length
      ≤ 1 := by
  have h := history_roundtrip emptyStorage "AAPL" [samplePrev, sampleCur]
    (by intro p hp; fin_cases hp <;> rfl) rfl (by decide)
  exact ⟨by rw [h.1]; rfl, by simpa using h.2.2.2.1, h.2.2.2.2 1⟩

/-- A successful quote construction always carries a strictly positive
price. -/
theorem buildQuote_ok_pos (provider symbol : String) (price : Rat) (now : Nat)
    (q : PriceQuote) (h : buildQuote provider symbol price now = .ok q) :
    0 < q.price := by
  unfold buildQuote at h
  split at h
  · rename_i hq
    injection h with h
    subst h
    exact (mkPriceQuote_ok _ _ _ _ _ hq).1
  · exact absurd h (by simp)

/-- C8: for every provider variant and every input, a successful fetch
carries a strictly positive price (so a non-positive, missing, or
unparseable source price is a failure, never a quote with a zero or
negative value), and a raw transport exception is classified: unavailable
for the three keyed providers, and rate-limited or unavailable according to
the 429 text test for the Yahoo provider.  Every failure is one of the two
constructors of `ProviderError`, so no uncategorized exception escapes. -/
theorem provider_failure_classification :
    (∀ (p : AlphaVantageProvider) (parse : String → Option Rat) (symbol : String)
        (now : Nat) (resp : HttpOutcome AVBody) (q : PriceQuote),
        p.get_latest_price parse symbol now resp = .ok q → 0 < q.price) ∧
    (∀ (p : FinnhubProvider) (symbol : String) (now : Nat)
        (resp : HttpOutcome FinnhubBody) (q : PriceQuote),
        p.get_latest_price symbol now resp = .ok q → 0 < q.price) ∧
    (∀ (p : TwelveDataProvider) (parse : String → Option Rat) (symbol : String)
        (now : Nat) (resp : HttpOutcome TwelveDataBody) (q : PriceQuote),
        p.get_latest_price parse symbol now resp = .ok q → 0 < q.price) ∧
    (∀ (symbol : String) (now : Nat) (outcome : YFOutcome) (q : PriceQuote),
        yahooFinanceGetLatestPrice symbol now outcome = .ok q → 0 < q.price) ∧
    (∀ (p : AlphaVantageProvider) (parse : String → Option Rat) (symbol : String)
        (now : Nat) (msg : String), p.api_key.data.isEmpty = false →
        p.get_latest_price parse symbol now (.transportError msg)
          = .error (.unavailable "alpha_vantage" msg)) ∧
    (∀ (p : FinnhubProvider) (symbol : String) (now : Nat) (msg : String),
        p.api_key.data.isEmpty = false →
        p.get_latest_price symbol now (.transportError msg)
          = .error (.unavailable "finnhub" msg)) ∧
    (∀ (p : TwelveDataProvider) (parse : String → Option Rat) (symbol : String)
        (now : Nat) (msg : String), p.api_key.data.isEmpty = false →
        p.get_latest_price parse symbol now (.transportError msg)
          = .error (.unavailable "twelve_data" msg)) ∧
    (∀ (symbol : String) (now : Nat) (msg : String),
        yahooFinanceGetLatestPrice symbol now (.raised msg)
          = if mentions429 msg then .error (.rateLimited "yahoo_finance" msg)
            else .error (.unavailable "yahoo_finance" msg)) := by
  refine ⟨?_, ?_, ?_, ?_, ?_, ?_, ?_, ?_⟩
  · intro p parse symbol now resp q h
    unfold AlphaVantageProvider.get_latest_price at h
    iterate 12
      all_goals try (split at h <;> try (exact Except.noConfusion h))
    all_goals exact buildQuote_ok_pos _ _ _ _ _ h
  · intro p symbol now resp q h
    unfold FinnhubProvider.get_latest_price at h
    iterate 12
      all_goals try (split at h <;> try (exact Except.noConfusion h))
    all_goals exact buildQuote_ok_pos _ _ _ _ _ h
  · intro p parse symbol now resp q h
    unfold TwelveDataProvider.get_latest_price at h
    iterate 12
      all_goals try (split at h <;> try (exact Except.noConfusion h))
    all_goals exact buildQuote_ok_pos _ _ _ _ _ h
  · intro symbol now outcome q h
    unfold yahooFinanceGetLatestPrice at h
    iterate 12
      all_goals try (split at h <;> try (exact Except.noConfusion h))
    all_goals exact buildQuote_ok_pos _ _ _ _ _ h
  · intro p parse symbol now msg hkey
    simp [AlphaVantageProvider.get_latest_price, hkey]
  · intro p symbol now msg hkey
    simp [FinnhubProvider.get_latest_price, hkey]
  · intro p parse symbol now msg hkey
    simp [TwelveDataProvider.get_latest_price, hkey]
  · intro symbol now msg
    rfl

/-- C8 witness: the sample Alpha Vantage call succeeds with price 100,
which the theorem certifies positive, and a transport error on the sample
provider is classified unavailable. -/
theorem provider_failure_classification_witness :
    avSample.get_latest_price parse100 "AAPL" 0 (.http 200 avOkBody) = .ok sampleQuoteAV ∧
    0 < sampleQuoteAV.price ∧
    avSample.get_latest_price parse100 "AAPL" 0 (.transportError "connection reset")
      = .error (.unavailable "alpha_vantage" "connection reset") := by
  have h1 : avSample.get_latest_price parse100 "AAPL" 0 (.http 200 avOkBody)
      = .ok sampleQuoteAV := rfl
  exact ⟨h1,
    provider_failure_classification.1 avSample parse100 "AAPL" 0 (.http 200 avOkBody)
      sampleQuoteAV h1,
    provider_failure_classification.2.2.2.2.1 avSample parse100 "AAPL" 0
      "connection reset" rfl⟩

/-- C9: each credentialed provider variant called with no configured API
key fails immediately as unavailable with the fixed "API key not
configured" message, for every possible response of the network — the
outcome does not depend on the request at all. -/
theorem missing_api_key_immediate (parse : String → Option Rat) (symbol : String)
    (now : Nat) (respA : HttpOutcome AVBody) (respF : HttpOutcome FinnhubBody)
    (respT : HttpOutcome TwelveDataBody) :
    AlphaVantageProvider.get_latest_price ⟨""⟩ parse symbol now respA
      = .error (.unavailable "alpha_vantage" "API key not configured") ∧
    FinnhubProvider.get_latest_price ⟨""⟩ symbol now respF
      = .error (.unavailable "finnhub" "API key not configured") ∧
    TwelveDataProvider.get_latest_price ⟨""⟩ parse symbol now respT
      = .error (.unavailable "twelve_data" "API key not configured") := by
  exact ⟨rfl, rfl, rfl⟩

end StockTracker
